import Mathlib

/-!
Verification of the process-gpt-agent-sdk worker against its natural-language
specification.  Python source functions are shallowly embedded as executable
Lean definitions; stateful code becomes explicit traces of effects; fallible
code returns Option / Except.  External library calls (json.loads, the LLM
summarizer, the Supabase store) are passed in as explicit function parameters,
so theorems quantify over their behaviour where the source does not pin it
down.
-/

namespace ProcessGPT

/-! ## Python value domain for executor event payloads

Mirrors the value shapes inspected by
`ProcessGPTEventQueue._parse_json_or_text`
(processgpt_agent_framework.py, lines 298-324): None, strings, ints, bools,
lists, string-keyed dicts, and objects carrying a field map
(model_dump / dict() / __dict__). -/

inductive Val : Type where
  | none : Val
  | str (s : String) : Val
  | int (n : Int) : Val
  | bool (b : Bool) : Val
  | list (xs : List Val) : Val
  | dict (kvs : List (String × Val)) : Val
  | obj (fields : List (String × Val)) : Val

/-- Model of Python `str.strip()`: drop whitespace from both ends
(character-list based so that it evaluates inside the kernel). -/
def pyStrip (s : String) : String :=
  String.mk (((s.data.dropWhile Char.isWhitespace).reverse.dropWhile
    Char.isWhitespace).reverse)

/-- Model of Python `str.lower()`. -/
def pyLower (s : String) : String :=
  String.mk (s.data.map Char.toLower)

/-- Python truthiness for the `Val` domain (used by the `x or y` idiom). -/
def pyTruthy : Val → Bool
  | .none => false
  | .str s => !(s = "")
  | .int n => !(n = 0)
  | .bool b => b
  | .list xs => !xs.isEmpty
  | .dict kvs => !kvs.isEmpty
  | .obj _ => true

/-- Python `x or y` on payload values: keep `x` when truthy, else `y`. -/
def pyOr (x y : Val) : Val := if pyTruthy x then x else y

/-- Python `d.get(k)` on a string-keyed dict, `None` when the key is absent. -/
def dictGet (kvs : List (String × Val)) (k : String) : Val :=
  match kvs.find? (fun kv => kv.1 = k) with
  | some kv => kv.2
  | Option.none => .none

/-- Embedding of the `model_dump` / `dict()` / `__dict__` reduction step of
`_parse_json_or_text`: an object is replaced by its field map; every other
value is left unchanged. -/
def reduce_to_dict : Val → Val
  | .obj fields => .dict fields
  | v => v

/-- Embedding of a `json.loads(s)` call site: `loads` is the (external)
parser, `Option.none` models a raised `json.JSONDecodeError`, which the
embedded function surfaces as `Except.error`. -/
def loadsCall (loads : String → Option Val) (s : String) : Except String Val :=
  match loads s with
  | some j => Except.ok j
  | Option.none => Except.error "json.JSONDecodeError"

/-- Embedding of the nested-parts probe of `_parse_json_or_text`
(lines 313-319): when the dict has a non-empty `parts` list whose first
element is a non-empty dict, return the first truthy of its
`text` / `content` / `data` entries provided it is a string. -/
def dict_parts_text (kvs : List (String × Val)) : Option String :=
  match dictGet kvs "parts" with
  | .list (p :: _) =>
      match p with
      | .dict fkvs =>
          if !fkvs.isEmpty then
            match pyOr (dictGet fkvs "text")
              (pyOr (dictGet fkvs "content") (dictGet fkvs "data")) with
            | .str t => some t
            | _ => Option.none
          else Option.none
      | _ => Option.none
  | _ => Option.none

/-- Embedding of the top-level text probe of `_parse_json_or_text`
(lines 320-323): parse the first truthy string among the dict entries
`text` / `content` / `data`, else return the dict as-is. -/
def dict_top_text (loads : String → Option Val) (kvs : List (String × Val)) :
    Except String Val :=
  match pyOr (dictGet kvs "text")
    (pyOr (dictGet kvs "content") (dictGet kvs "data")) with
  | .str t => loadsCall loads t
  | _ => Except.ok (.dict kvs)

/-- Embedding of `ProcessGPTEventQueue._parse_json_or_text`
(processgpt_agent_framework.py lines 298-324), parametrised by the external
`json.loads`.  `Except.error` models an exception propagating out of the
function. -/
def parse_json_or_text (loads : String → Option Val) (value : Val) : Except String Val :=
  match value with
  | .none => Except.ok (.dict [])
  | .str s =>
      let text := pyStrip s
      if text = "" then Except.ok (.str "")
      else loadsCall loads text
  | v =>
      match reduce_to_dict v with
      | .dict kvs =>
          match dict_parts_text kvs with
          | some t => loadsCall loads t
          | Option.none => dict_top_text loads kvs
      | w => Except.ok w

/-- Embedding of `ProcessGPTEventQueue._extract_payload`
(processgpt_agent_framework.py lines 291-296): the source is the artifact
field when present, otherwise the status message. -/
def extract_payload (loads : String → Option Val) (artifact : Option Val)
    (statusMessage : Option Val) : Except String Val :=
  match artifact with
  | some a => parse_json_or_text loads a
  | Option.none =>
      match statusMessage with
      | some m => parse_json_or_text loads m
      | Option.none => parse_json_or_text loads .none

/-! ## Event records and the task boundary policy

Shallow embedding of `ProcessGPTEventQueue.enqueue_event` (status branch),
`ProcessGPTEventQueue.task_done` and
`ProcessGPTAgentServer.process_todolist_item`
(processgpt_agent_framework.py lines 260-285, 326-344, 406-490). -/

/-- Python `x or y` where both operands are strings-or-None. -/
def pyOrOptStr (x y : Option String) : Option String :=
  match x with
  | some s => if s = "" then y else some s
  | Option.none => y

/-- Python `x or default` where `x` is a string-or-None and the default is a
string. -/
def pyStrOrD (x : Option String) (d : String) : String :=
  match x with
  | some s => if s = "" then d else s
  | Option.none => d

/-- The a2a `TaskState` enum values carried by a status-update event. -/
inductive TaskState : Type where
  | submitted
  | working
  | input_required
  | completed
  | canceled
  | failed
  | rejected
  | auth_required
  | unknown
deriving DecidableEq

/-- Metadata fields read from a status-update event by `enqueue_event`
(lines 262-268): `metadata.get` returns `None` when a key is absent. -/
structure StatusUpdateMeta : Type where
  crew_type : Option String
  event_type : Option String
  status : Option String
  job_id : Option String

/-- Event record pushed to the process-wide coalescer, mirroring the payload
dict built at lines 272-281 and 329-338. -/
structure UIEvent : Type where
  id : String
  job_id : Option String
  todo_id : String
  proc_inst_id : Option String
  crew_type : Option String
  event_type : Option String
  data : Val
  status : Option String

/-- Embedding of `{TaskState.input_required: "human_asked"}.get(state_val)`
(line 266, first operand of the `or`). -/
def stateEventMap : Option TaskState → Option String
  | some TaskState.input_required => some "human_asked"
  | _ => Option.none

/-- Embedding of the status-update branch of
`ProcessGPTEventQueue.enqueue_event` (lines 260-285): the record built for
the coalescer, with `event_type` computed as
`{input_required: "human_asked"}.get(state) or metadata.get("event_type")`
and an empty-string status collapsed to null by `status_val or None`. -/
def status_event_payload (uuidVal : String) (todo_id : String)
    (proc_inst_id : Option String) (meta : StatusUpdateMeta)
    (state : Option TaskState) (data : Val) : UIEvent :=
  { id := uuidVal
    job_id := meta.job_id
    todo_id := todo_id
    proc_inst_id := proc_inst_id
    crew_type := meta.crew_type
    event_type := pyOrOptStr (stateEventMap state) meta.event_type
    data := data
    status := pyOrOptStr meta.status Option.none }

/-- Embedding of `ProcessGPTEventQueue.task_done` (lines 326-344): the
synthetic `crew_completed` record enqueued through the coalescer. -/
def task_done_payload (uuidVal : String) (todolist_id : String)
    (proc_inst_id : Option String) : UIEvent :=
  { id := uuidVal
    job_id := some "CREW_FINISHED"
    todo_id := todolist_id
    proc_inst_id := proc_inst_id
    crew_type := some "crew"
    event_type := some "crew_completed"
    data := Val.str "Task completed successfully"
    status := Option.none }

/-- Name and message of a raised Python exception. -/
structure PyError : Type where
  className : String
  message : String
deriving DecidableEq

/-- Outcome of `context.prepare_context()`: any failure is re-raised as
`ContextPreparationError(e)` wrapping the original exception `e`
(lines 204-206); the raise site never supplies a `friendly` text. -/
inductive PrepOutcome : Type where
  | ok
  | raised (e : PyError)
deriving DecidableEq

/-- Outcome of `await self.agent_executor.execute(context, event_queue)`:
normal return, an `Exception`, or an `asyncio.CancelledError` (which is a
`BaseException` and therefore passes the `except Exception` boundary). -/
inductive ExecOutcome : Type where
  | ok
  | raised (e : PyError)
  | cancelled
deriving DecidableEq

/-- Data dict of the boundary error event (lines 466-472). -/
structure ErrorData : Type where
  name : String
  goal : String
  agent_profile : String
  friendly : String
  raw_error : String
deriving DecidableEq

/-- Error event record persisted by the boundary handler via `record_event`
(lines 459-473). -/
structure ErrorEventRecord : Type where
  id : String
  job_id : String
  todo_id : String
  proc_inst_id : Option String
  crew_type : String
  event_type : String
  data : ErrorData
deriving DecidableEq

/-- Fixed fallback message used when no friendly summary is available
(line 470). -/
def fixed_friendly : String := "처리 중 오류가 발생했습니다. 로그를 확인해 주세요."

/-- Embedding of the error payload built in the `except` block of
`process_todolist_item` (lines 459-473).  `origin` is the original cause
(`e.original` for a `ContextPreparationError`, `e` otherwise) and
`friendly_text` the summarizer outcome (`Option.none` when
`summarize_error_to_user` itself raised). -/
def boundary_error_payload (uuidVal task_id : String)
    (proc_inst_id : Option String) (origin : PyError)
    (friendly_text : Option String) : ErrorEventRecord :=
  { id := uuidVal
    job_id := "TASK_ERROR"
    todo_id := task_id
    proc_inst_id := proc_inst_id
    crew_type := "agent"
    event_type := "error"
    data :=
      { name := "시스템 오류 알림"
        goal := "오류 원인과 대처 안내를 전달합니다."
        agent_profile := "/images/chat-icon.png"
        friendly := pyStrOrD friendly_text fixed_friendly
        raw_error := origin.className ++ ": " ++ origin.message } }

/-- Column changes applied by `update_task_error` (database.py lines
520-537): `draft_status` is set to FAILED and `consumer` to null. -/
def update_task_error_changes : List (String × Option String) :=
  [("draft_status", some "FAILED"), ("consumer", Option.none)]

/-- Observable side effects of one `process_todolist_item` call, in program
order. -/
inductive Effect : Type where
  | prepare
  | executeCall
  | coalesce (e : UIEvent)
  | recordError (r : ErrorEventRecord)
  | markFailed (todo_id : String) (changes : List (String × Option String))

/-- Boolean recogniser for an error-event effect. -/
def isRecordError : Effect → Bool
  | .recordError _ => true
  | _ => false

/-- Boolean recogniser for a FAILED-marking effect. -/
def isMarkFailed : Effect → Bool
  | .markFailed _ _ => true
  | _ => false

/-- Boolean recogniser for a coalesced `crew_completed` record. -/
def isCrewCompleted : Effect → Bool
  | .coalesce e => e.event_type == some "crew_completed"
  | _ => false

/-- Embedding of `ProcessGPTAgentServer.process_todolist_item`
(processgpt_agent_framework.py lines 406-490).  Inputs fix the external
outcomes: `prep` of `prepare_context`, `exec` of `executor.execute`, `summ`
of `summarize_error_to_user` (`Option.none` = the summarizer raised), and
fresh uuids.  The result is the trace of store-visible effects plus whether
the call returned normally (`false` models a `CancelledError` escaping the
`except Exception` block).  Failures of the error recording
(lines 474-478) and of the FAILED marking (lines 482-486) are caught by
their own `try/except` and change neither the trace nor the return, so they
need no parameter. -/
def process_todolist_item (task_id : String) (proc_inst_id : Option String)
    (prep : PrepOutcome) (exe : ExecOutcome) (summ : Option String)
    (errUuid doneUuid : String) : List Effect × Bool :=
  match prep with
  | .raised e =>
      ([Effect.prepare,
        Effect.recordError (boundary_error_payload errUuid task_id proc_inst_id e summ),
        Effect.markFailed task_id update_task_error_changes], true)
  | .ok =>
      match exe with
      | .ok =>
          ([Effect.prepare, Effect.executeCall,
            Effect.coalesce (task_done_payload doneUuid task_id proc_inst_id)], true)
      | .raised e =>
          ([Effect.prepare, Effect.executeCall,
            Effect.recordError (boundary_error_payload errUuid task_id proc_inst_id e summ),
            Effect.markFailed task_id update_task_error_changes], true)
      | .cancelled =>
          ([Effect.prepare, Effect.executeCall], false)

/-! ## Retry helper

Shallow embedding of `_async_retry` (database.py lines 25-55 and
core/database.py lines 33-65; the loop structure is identical in both).
Delays are rationals; the `jit` stream fixes the values drawn by
`random.uniform(0, 0.3)` for each attempt. -/

/-- Default `retries` parameter of `_async_retry`. -/
def retry_default_retries : Nat := 3

/-- Default `base_delay` parameter of `_async_retry` (0.8 seconds). -/
def retry_default_base_delay : ℚ := 8 / 10

/-- Boolean recogniser for a failed call outcome. -/
def isErrB {T : Type} : Except PyError T → Bool
  | Except.error _ => true
  | Except.ok _ => false

/-- Terminal step of `_async_retry` after the loop exhausts (lines 43-55):
invoke the fallback when supplied, returning `None` when the fallback itself
raises; return `None` when no fallback is supplied. -/
def retry_fallback {T : Type} (fb : Option (Except PyError T)) : Option T :=
  match fb with
  | Option.none => Option.none
  | some (Except.ok v) => some v
  | some (Except.error _) => Option.none

/-- Observable outcome of one `_async_retry` call: how many times `fn` was
executed, the delays slept after failed attempts (in order), and the value
returned to the caller. -/
structure RetryTrace (T : Type) : Type where
  attempts : Nat
  delays : List ℚ
  result : Option T

/-- Loop body of `_async_retry` starting at attempt number `k` with `fuel`
attempts left: on success return the value; on exception sleep
`base_delay * 2 ** (attempt - 1) + jitter` and move to the next attempt
(lines 35-42). -/
def retry_from {T : Type} (op : Nat → Except PyError T) (base : ℚ)
    (jit : Nat → ℚ) (fb : Option (Except PyError T)) :
    Nat → Nat → RetryTrace T
  | _, 0 => { attempts := 0, delays := [], result := retry_fallback fb }
  | k, fuel + 1 =>
      match op k with
      | Except.ok v => { attempts := 1, delays := [], result := some v }
      | Except.error _ =>
          let rest := retry_from op base jit fb (k + 1) fuel
          { attempts := rest.attempts + 1
            delays := (base * 2 ^ (k - 1) + jit k) :: rest.delays
            result := rest.result }

/-- Embedding of `_async_retry fn retries base_delay fallback`: run the
attempt loop from attempt 1. -/
def async_retry {T : Type} (op : Nat → Except PyError T) (retries : Nat)
    (base : ℚ) (jit : Nat → ℚ) (fb : Option (Except PyError T)) :
    RetryTrace T :=
  retry_from op base jit fb 1 retries

/-! ## Event coalescer

Shallow embedding of the process-wide coalescer
(processgpt_agent_framework.py lines 43-89).  The buffer, the single
delay-timer handle and the lock form the only shared state; operations are
serialised by `_EVENT_LOCK`, so they are modelled as atomic steps of a state
machine emitting observable actions. -/

/-- Default of `EVENT_COALESCE_BATCH` (line 45). -/
def COALESCE_BATCH_default : Nat := 3

/-- Default of `EVENT_COALESCE_DELAY_SEC` in seconds (line 44). -/
def COALESCE_DELAY_default : ℚ := 1

/-- Process-wide coalescer state: the buffered records (`_EVENT_BUF`) and
whether a delay timer is pending (`_EVENT_TIMER is not None`). -/
structure CoalescerState : Type where
  buf : List UIEvent
  timerArmed : Bool

/-- Observable actions of a coalescer step. -/
inductive CoalescerAction : Type where
  | armTimer
  | cancelTimer
  | bulk (records : List UIEvent)

/-- Boolean recogniser for a `record_events_bulk` call. -/
def isBulk : CoalescerAction → Bool
  | .bulk _ => true
  | _ => false

/-- Embedding of `_flush_events_now` (lines 51-67): snapshot and clear the
buffer and cancel any pending timer under the lock, then call
`record_events_bulk` once when the snapshot is non-empty and not at all when
it is empty. -/
def flush_events_now (s : CoalescerState) : CoalescerState × List CoalescerAction :=
  let snapshot := s.buf
  ({ buf := [], timerArmed := false },
    (if s.timerArmed then [CoalescerAction.cancelTimer] else []) ++
    (if snapshot.isEmpty then [] else [CoalescerAction.bulk snapshot]))

/-- Embedding of `enqueue_ui_event_coalesced` (lines 75-89) together with
`_schedule_delayed_flush` (lines 69-73): append the record under the lock;
if the buffer size reaches the batch threshold flush immediately, otherwise
arm the delay timer only when none is pending. -/
def enqueue_ui_event_coalesced (batch : Nat) (r : UIEvent)
    (s : CoalescerState) : CoalescerState × List CoalescerAction :=
  let buf2 := s.buf ++ [r]
  if batch ≤ buf2.length then
    flush_events_now { buf := buf2, timerArmed := s.timerArmed }
  else
    ({ buf := buf2, timerArmed := true },
      if s.timerArmed then [] else [CoalescerAction.armTimer])

/-! ## Form definition lookup used by context preparation -/

/-- Form field entry of a form definition. -/
structure FormField : Type where
  key : String
  type : String
deriving DecidableEq

/-- Embedding of stripping the `formHandler:` optional marker from the tool
value (`tool_val[12:] if tool_val.startswith("formHandler:") else
tool_val`, database.py line 303). -/
def strip_form_handler (tool : String) : String :=
  if "formHandler:".data.isPrefixOf tool.data then String.mk (tool.data.drop 12)
  else tool

/-- Modelled from the spec: the default freeform form supplied when the form
definition lookup fails (spec section 4.2, lookup table row for the form
definition). -/
def default_freeform_form : String × List FormField × Option String :=
  ("freeform", [{ key := "freeform", type := "textarea" }], Option.none)

/-- Modelled from the spec: `fetch_form_def` is imported by
`processgpt_agent_framework.py` (line 24) from `.database` and called during
context preparation (line 118), but its definition is not present under the
sources; per spec section 4.2 it looks up the form definition by the tool
value with the `formHandler:` marker stripped, and supplies the default
freeform form `(id:"freeform", fields:[(key:"freeform", type:"textarea")],
html:null)` when the lookup fails after all retries (`lookup` returning
`Option.none` models that terminal failure). -/
def fetch_form_def
    (lookup : String → String → Option (List FormField × Option String))
    (tool tenant_id : String) : String × List FormField × Option String :=
  let form_id := strip_form_handler tool
  match lookup form_id tenant_id with
  | some (fields, html) => (form_id, fields, html)
  | Option.none => default_freeform_form

/-! ## Cancellation watcher

Shallow embedding of `ProcessGPTAgentServer._watch_cancellation`
(server.py lines 178-203).  The status stream fixes the value returned by
`fetch_task_status` at each poll; `fuel` bounds the observation window. -/

/-- Default of `cancel_check_interval` in seconds (server.py line 42). -/
def cancel_check_interval_default : ℚ := 1 / 2

/-- Observable actions of the watcher loop. -/
inductive WatchAct : Type where
  | sleep
  | poll (i : Nat)
  | execCancel
  | cancelExecTask
  | closeQueue
deriving DecidableEq

/-- Embedding of `(status or "").strip().lower() in ("cancelled",
"fb_requested")` (server.py lines 186-187). -/
def is_cancel_status (status : Option String) : Bool :=
  let normalized := pyLower (pyStrip (status.getD ""))
  normalized == "cancelled" || normalized == "fb_requested"

/-- Embedding of the `_watch_cancellation` loop from poll index `i` with
`fuel` iterations left: each iteration sleeps, polls the status, and on a
cancel signal invokes `executor.cancel` (failures caught), cancels the
execute task, closes the event queue and exits; otherwise it loops. -/
def watch_cancellation (statuses : Nat → Option String) :
    Nat → Nat → List WatchAct
  | _, 0 => []
  | i, fuel + 1 =>
      WatchAct.sleep :: WatchAct.poll i ::
        (if is_cancel_status (statuses i) then
          [WatchAct.execCancel, WatchAct.cancelExecTask, WatchAct.closeQueue]
        else watch_cancellation statuses (i + 1) fuel)

/-! ## Agent lookup

Shallow embedding of `fetch_agent_data` and `fetch_all_agents`
(database.py lines 207-294; core/database.py lines 235-323 is structurally
identical).  The store queries and the stdlib UUID validator are passed in
as functions: `queryAgents` returning `Option.none` models the query failing
on every retry (the retry fallback then yields the empty list, which the
code treats the same as no rows). -/

/-- Raw `users` row as selected by the agent queries. -/
structure UserRow : Type where
  id : Option String
  username : Option String
  role : Option String
  goal : Option String
  persona : Option String
  tools : Option String
  profile : Option String
  model : Option String
  tenant_id : Option String
  endpoint : Option String
deriving DecidableEq

/-- Normalised agent dict built by both agent queries. -/
structure Agent : Type where
  id : Option String
  name : Option String
  role : Option String
  goal : Option String
  persona : Option String
  tools : String
  profile : Option String
  model : Option String
  tenant_id : Option String
  endpoint : Option String
deriving DecidableEq

/-- Embedding of the per-row normalisation shared by `fetch_all_agents` and
`fetch_agent_data` (database.py lines 227-240 and 268-282): `tools` falls
back to "mem0" via `row.get("tools") or "mem0"`. -/
def normalize_agent_row (row : UserRow) : Agent :=
  { id := row.id
    name := row.username
    role := row.role
    goal := row.goal
    persona := row.persona
    tools := pyStrOrD row.tools "mem0"
    profile := row.profile
    model := row.model
    tenant_id := row.tenant_id
    endpoint := row.endpoint }

/-- Embedding of `[x.strip() for x in (user_ids or "").split(",") if
x.strip()]` (database.py line 250). -/
def split_ids (s : String) : List String :=
  ((s.data.splitOn ',').map (fun cs => pyStrip (String.mk cs))).filter
    (fun x => !(x == ""))

/-- Embedding of `fetch_agent_data` (database.py lines 247-294):
`isValidUuid` is the stdlib `uuid.UUID` validity test, `queryAgents` the
filtered users query (`Option.none` = failed after all retries), and
`allAgentRows` the rows that `fetch_all_agents` would return. -/
def fetch_agent_data (isValidUuid : String → Bool)
    (queryAgents : List String → Option (List UserRow))
    (allAgentRows : List UserRow) (user_ids : String) : List Agent :=
  let raw_ids := split_ids user_ids
  let valid_ids := raw_ids.filter isValidUuid
  if valid_ids.isEmpty then allAgentRows.map normalize_agent_row
  else
    match queryAgents valid_ids with
    | Option.none => allAgentRows.map normalize_agent_row
    | some rows =>
        let result := rows.map normalize_agent_row
        if result.isEmpty then allAgentRows.map normalize_agent_row
        else result

/-! ## JSON-safe serialisation

Shallow embedding of `_to_jsonable`, `record_event` and `save_task_result`
(database.py lines 66-79, 413-441, 444-471).  `PyVal` models the Python
values a payload can contain: primitives, dicts (with arbitrary hashable
keys, converted by `str(k)`), lists/tuples/sets, objects exposing
`__dict__`, and everything else (carrying its `repr` string). -/

inductive PyVal : Type where
  | none
  | bool (b : Bool)
  | int (n : Int)
  | str (s : String)
  | dict (kvs : List (PyVal × PyVal))
  | list (xs : List PyVal)
  | tuple (xs : List PyVal)
  | set (xs : List PyVal)
  | obj (fields : List (String × PyVal))
  | other (r : String)

/-- Model of Python `str(k)` on the dict-key values (stdlib behaviour). -/
def pyStr : PyVal → String
  | .str s => s
  | .bool true => "True"
  | .bool false => "False"
  | .int n => toString n
  | .none => "None"
  | _ => "<unprintable key>"

/-- Embedding of `_to_jsonable` (database.py lines 66-79): primitives pass
through, dicts recurse with keys forced to strings via `str(k)`,
lists/tuples/sets become lists, objects with a `__dict__` recurse on
`vars(value)` (inlined here as the dict of their fields, whose keys are
already strings), and anything else becomes its `repr` string. -/
def to_jsonable : PyVal → PyVal
  | .none => .none
  | .bool b => .bool b
  | .int n => .int n
  | .str s => .str s
  | .dict kvs => .dict (kvs.attach.map
      (fun kv => (PyVal.str (pyStr kv.1.1), to_jsonable kv.1.2)))
  | .list xs => .list (xs.attach.map (fun x => to_jsonable x.1))
  | .tuple xs => .list (xs.attach.map (fun x => to_jsonable x.1))
  | .set xs => .list (xs.attach.map (fun x => to_jsonable x.1))
  | .obj fields => .dict (fields.attach.map
      (fun kv => (PyVal.str (pyStr (.str kv.1.1)), to_jsonable kv.1.2)))
  | .other r => .str r
decreasing_by
  all_goals simp_wf
  all_goals first
    | (have h := List.sizeOf_lt_of_mem x.2
       omega)
    | (rcases kv with ⟨⟨a, b⟩, hmem⟩
       have h := List.sizeOf_lt_of_mem hmem
       simp only [Prod.mk.sizeOf_spec] at h
       simp only []
       show sizeOf b < _
       omega)

/-- JSON-safe values: null, booleans, numbers, strings, lists of JSON-safe
values, and dicts whose keys are strings and whose values are JSON-safe. -/
def isJsonable : PyVal → Bool
  | .none => true
  | .bool _ => true
  | .int _ => true
  | .str _ => true
  | .dict kvs => kvs.attach.all
      (fun kv => (match kv.1.1 with | .str _ => true | _ => false) &&
        isJsonable kv.1.2)
  | .list xs => xs.attach.all (fun x => isJsonable x.1)
  | _ => false
decreasing_by
  all_goals simp_wf
  all_goals first
    | (have h := List.sizeOf_lt_of_mem x.2
       omega)
    | (rcases kv with ⟨⟨a, b⟩, hmem⟩
       have h := List.sizeOf_lt_of_mem hmem
       simp only [Prod.mk.sizeOf_spec] at h
       simp only []
       show sizeOf b < _
       omega)

/-- Python `d.get(k)` for a string key on a converted dict. -/
def getStrKey (kvs : List (PyVal × PyVal)) (k : String) : Option PyVal :=
  (kvs.find? (fun kv => match kv.1 with | .str s => s == k | _ => false)).map
    (fun kv => kv.2)

/-- Embedding of the `safe_payload["status"] = None` normalisation inside
`record_event._call` (database.py lines 421-425): when the converted payload
is a dict whose `status` entry equals the empty string, that entry is set to
null. -/
def normalize_status_field : PyVal → PyVal
  | .dict kvs =>
      if (getStrKey kvs "status").any
          (fun v => match v with | .str s => s == "" | _ => false) then
        .dict (kvs.map (fun kv => match kv.1 with
          | .str s => if s == "status" then (kv.1, PyVal.none) else kv
          | _ => kv))
      else .dict kvs
  | v => v

/-- Embedding of `record_event` (database.py lines 413-441): a `None`
payload is rejected with a log and nothing is inserted; otherwise the
inserted row is the payload made JSON-safe with an empty-string `status`
normalised to null.  Store failures are absorbed by the retry fallback and
the surrounding `try/except`, so the function is total. -/
def record_event_insert (payload : Option PyVal) : Option PyVal :=
  match payload with
  | Option.none => Option.none
  | some p => some (normalize_status_field (to_jsonable p))

/-- Embedding of the payload serialisation of `save_task_result`
(database.py lines 444-471): `_safe_payload` applies `_to_jsonable` (its
own `except` arms are unreachable since the conversion is total), and store
failures are absorbed as in `record_event`. -/
def save_task_result_payload (result : PyVal) : PyVal :=
  to_jsonable result

/-- Reads the `status` entry of an inserted event row (dict payloads only). -/
def status_field : PyVal → Option PyVal
  | .dict kvs => getStrKey kvs "status"
  | _ => Option.none

/-- Concrete event record used by witness instantiations. -/
def sampleUIEvent : UIEvent :=
  { id := "e1"
    job_id := some "J"
    todo_id := "T1"
    proc_inst_id := some "P1"
    crew_type := some "crew"
    event_type := some "progress"
    data := Val.str "d"
    status := Option.none }

/-- Concrete users row used by witness instantiations. -/
def sampleUserRow : UserRow :=
  { id := some "a1"
    username := some "agent-one"
    role := some "r"
    goal := some "g"
    persona := some "p"
    tools := Option.none
    profile := Option.none
    model := Option.none
    tenant_id := some "ten"
    endpoint := Option.none }

/-! # Theorems -/

/-- C1: the specification states that when the trimmed non-empty string
source fails to JSON-parse, the original string is returned unchanged and no
exception escapes.  The code calls `json.loads(text)` with no exception
handler (lines 301-305), so for a source such as " hello " (trimmed to
"hello", which Python json.loads rejects: `loads "hello" = none`) the
extraction raises instead of returning the original string.  The empty-trim
case does return the empty string as specified. -/
theorem c1_parse_json_or_text_raises_on_invalid_json
    (loads : String → Option Val) (hfail : loads "hello" = Option.none) :
    parse_json_or_text loads (Val.str "  ") = Except.ok (Val.str "") ∧
    parse_json_or_text loads (Val.str " hello ") =
      Except.error "json.JSONDecodeError" ∧
    parse_json_or_text loads (Val.str " hello ") ≠
      Except.ok (Val.str " hello ") := by
  have hstrip : pyStrip " hello " = "hello" := rfl
  refine ⟨rfl, ?_, ?_⟩ <;>
    simp [parse_json_or_text, hstrip, loadsCall, hfail]

/-- C1 witness: instantiation at a parser that rejects "hello", as Python
json.loads does. -/
theorem c1_witness :
    parse_json_or_text (fun _ => Option.none) (Val.str "  ") =
        Except.ok (Val.str "") ∧
    parse_json_or_text (fun _ => Option.none) (Val.str " hello ") =
        Except.error "json.JSONDecodeError" ∧
    parse_json_or_text (fun _ => Option.none) (Val.str " hello ") ≠
        Except.ok (Val.str " hello ") :=
  c1_parse_json_or_text_raises_on_invalid_json (fun _ => Option.none) rfl

/-- C5: when the form-definition lookup fails after all retries, context
preparation receives the default freeform form (id "freeform", a single
textarea field keyed "freeform", no html) instead of failing; the lookup key
is the tool value with the `formHandler:` marker stripped when present. -/
theorem c5_form_def_fallback_freeform
    (lookup : String → String → Option (List FormField × Option String))
    (tool tenant_id : String)
    (hfail : lookup (strip_form_handler tool) tenant_id = Option.none) :
    fetch_form_def lookup tool tenant_id =
      ("freeform", [{ key := "freeform", type := "textarea" }], Option.none) ∧
    (∀ rest : String, strip_form_handler ("formHandler:" ++ rest) = rest) := by
  constructor
  · simp [fetch_form_def, hfail, default_freeform_form]
  · intro rest
    obtain ⟨l⟩ := rest
    simp only [strip_form_handler, String.data_append]
    rw [if_pos]
    · show String.mk ((("formHandler:".data ++ l).drop "formHandler:".data.length)) = _
      rw [List.drop_left]
    · rw [ List.isPrefixOf_iff_prefix]
      exact List.prefix_append _ _

/-- C5 witness: instantiation at a lookup that fails on every input. -/
theorem c5_witness :
    fetch_form_def (fun _ _ => Option.none) "formHandler:orderForm" "ten" =
      ("freeform", [{ key := "freeform", type := "textarea" }], Option.none) :=
  (c5_form_def_fallback_freeform (fun _ _ => Option.none)
    "formHandler:orderForm" "ten" rfl).1

/-- C6: a status-update whose state is input-required is persisted with
event_type exactly "human_asked" whatever metadata.event_type holds; for any
other state the event_type is taken from metadata.event_type. -/
theorem c6_input_required_maps_to_human_asked
    (uuidVal todo_id : String) (proc_inst_id : Option String)
    (meta : StatusUpdateMeta) (state : Option TaskState) (data : Val) :
    (state = some TaskState.input_required →
      (status_event_payload uuidVal todo_id proc_inst_id meta state
        data).event_type = some "human_asked") ∧
    (state ≠ some TaskState.input_required →
      (status_event_payload uuidVal todo_id proc_inst_id meta state
        data).event_type = meta.event_type) := by
  constructor
  · rintro rfl
    rfl
  · intro h
    cases state with
    | none => rfl
    | some s =>
        cases s
        case input_required => exact absurd rfl h
        all_goals rfl

/-- C6 witness: an input-required status with metadata event_type
"anything" persists as "human_asked". -/
theorem c6_witness :
    (status_event_payload "u1" "T1" (some "P1")
      { crew_type := some "crew", event_type := some "anything",
        status := some "s", job_id := some "J" }
      (some TaskState.input_required) (Val.str "x")).event_type =
      some "human_asked" :=
  (c6_input_required_maps_to_human_asked "u1" "T1" (some "P1")
    { crew_type := some "crew", event_type := some "anything",
      status := some "s", job_id := some "J" }
    (some TaskState.input_required) (Val.str "x")).1 rfl

/-- C2: for every task whose processing raises during context preparation or
executor execution, the boundary handler records exactly one error event —
event_type "error", job_id "TASK_ERROR", crew_type "agent", friendly falling
back to the fixed message when summarization fails, raw_error of the form
"Class: message" for the original cause — followed by exactly one FAILED
transition (draft_status=FAILED, consumer=null); the call returns normally
(recording and marking failures are swallowed by their own handlers), so the
polling loop continues. -/
theorem c2_boundary_single_error_path
    (task_id : String) (proc_inst_id : Option String)
    (prep : PrepOutcome) (exe : ExecOutcome) (summ : Option String)
    (errUuid doneUuid : String) (e : PyError)
    (h : prep = PrepOutcome.raised e ∨
      (prep = PrepOutcome.ok ∧ exe = ExecOutcome.raised e)) :
    (process_todolist_item task_id proc_inst_id prep exe summ errUuid
        doneUuid).1.countP isRecordError = 1 ∧
    Effect.recordError (boundary_error_payload errUuid task_id proc_inst_id
        e summ) ∈ (process_todolist_item task_id proc_inst_id prep exe summ
        errUuid doneUuid).1 ∧
    (process_todolist_item task_id proc_inst_id prep exe summ errUuid
        doneUuid).1.countP isMarkFailed = 1 ∧
    Effect.markFailed task_id
        [("draft_status", some "FAILED"), ("consumer", Option.none)] ∈
      (process_todolist_item task_id proc_inst_id prep exe summ errUuid
        doneUuid).1 ∧
    (process_todolist_item task_id proc_inst_id prep exe summ errUuid
        doneUuid).2 = true ∧
    (boundary_error_payload errUuid task_id proc_inst_id e summ).event_type
        = "error" ∧
    (boundary_error_payload errUuid task_id proc_inst_id e summ).job_id
        = "TASK_ERROR" ∧
    (boundary_error_payload errUuid task_id proc_inst_id e summ).crew_type
        = "agent" ∧
    (summ = Option.none →
      (boundary_error_payload errUuid task_id proc_inst_id
        e summ).data.friendly = fixed_friendly) ∧
    (boundary_error_payload errUuid task_id proc_inst_id e summ).data.raw_error
        = e.className ++ ": " ++ e.message := by
  have hfields :
      (boundary_error_payload errUuid task_id proc_inst_id e summ).event_type
          = "error" ∧
      (boundary_error_payload errUuid task_id proc_inst_id e summ).job_id
          = "TASK_ERROR" ∧
      (boundary_error_payload errUuid task_id proc_inst_id e summ).crew_type
          = "agent" ∧
      (summ = Option.none →
        (boundary_error_payload errUuid task_id proc_inst_id
          e summ).data.friendly = fixed_friendly) ∧
      (boundary_error_payload errUuid task_id proc_inst_id
          e summ).data.raw_error = e.className ++ ": " ++ e.message := by
    refine ⟨rfl, rfl, rfl, ?_, rfl⟩
    rintro rfl
    rfl
  rcases h with h | ⟨h1, h2⟩
  · subst h
    refine ⟨?_, ?_, ?_, ?_, rfl, hfields⟩ <;>
      simp [process_todolist_item, List.countP_cons, isRecordError,
        isMarkFailed, update_task_error_changes]
  · subst h1; subst h2
    refine ⟨?_, ?_, ?_, ?_, rfl, hfields⟩ <;>
      simp [process_todolist_item, List.countP_cons, isRecordError,
        isMarkFailed, update_task_error_changes]

/-- C2 witness: a context-preparation failure with a failing summarizer. -/
theorem c2_witness :
    (process_todolist_item "T1" (some "P1")
        (PrepOutcome.raised { className := "RuntimeError", message := "boom" })
        ExecOutcome.ok Option.none "u-err" "u-done").1.countP isRecordError
      = 1 ∧
    (boundary_error_payload "u-err" "T1" (some "P1")
        { className := "RuntimeError", message := "boom" }
        Option.none).data.raw_error = "RuntimeError: boom" := by
  have h := c2_boundary_single_error_path "T1" (some "P1")
    (PrepOutcome.raised { className := "RuntimeError", message := "boom" })
    ExecOutcome.ok Option.none "u-err" "u-done"
    { className := "RuntimeError", message := "boom" } (Or.inl rfl)
  exact ⟨h.1, h.2.2.2.2.2.2.2.2.2⟩

/-- C7: a crew_completed record (job_id "CREW_FINISHED", crew_type "crew")
reaches the coalescer if and only if context preparation succeeded and the
executor's execute call returned without raising; when execute raises or is
cancelled, task_done is never invoked and no crew_completed record is
produced for that call. -/
theorem c7_crew_completed_iff_execute_ok
    (task_id : String) (proc_inst_id : Option String)
    (prep : PrepOutcome) (exe : ExecOutcome) (summ : Option String)
    (errUuid doneUuid : String) :
    ((process_todolist_item task_id proc_inst_id prep exe summ errUuid
        doneUuid).1.any isCrewCompleted = true ↔
      (prep = PrepOutcome.ok ∧ exe = ExecOutcome.ok)) ∧
    (task_done_payload doneUuid task_id proc_inst_id).job_id
        = some "CREW_FINISHED" ∧
    (task_done_payload doneUuid task_id proc_inst_id).crew_type
        = some "crew" ∧
    (task_done_payload doneUuid task_id proc_inst_id).event_type
        = some "crew_completed" := by
  refine ⟨?_, rfl, rfl, rfl⟩
  cases prep with
  | raised e =>
      simp [process_todolist_item, isCrewCompleted]
  | ok =>
      cases exe with
      | ok =>
          simp [process_todolist_item, isCrewCompleted, task_done_payload]
      | raised e =>
          simp [process_todolist_item, isCrewCompleted]
      | cancelled =>
          simp [process_todolist_item, isCrewCompleted]

/-- Helper: on an always-failing op, the retry loop starting at attempt `k`
with `fuel` attempts left performs all `fuel` attempts, sleeps the
exponential-backoff delay after each, and ends in the fallback step. -/
theorem retry_from_all_fail {T : Type} (op : Nat → Except PyError T)
    (base : ℚ) (jit : Nat → ℚ) (fb : Option (Except PyError T))
    (hop : ∀ k, isErrB (op k) = true) :
    ∀ fuel k, 1 ≤ k →
      retry_from op base jit fb k fuel =
        { attempts := fuel
          delays := (List.range fuel).map
            (fun i => base * 2 ^ (k - 1 + i) + jit (k + i))
          result := retry_fallback fb } := by
  intro fuel
  induction fuel with
  | zero =>
      intro k _
      simp [retry_from]
  | succ n ih =>
      intro k hk
      have he := hop k
      cases hok : op k with
      | ok v => rw [hok] at he; simp [isErrB] at he
      | error er =>
          have hdl : (base * 2 ^ (k - 1) + jit k) ::
              (List.range n).map
                (fun i => base * 2 ^ (k + i) + jit (k + 1 + i)) =
              (List.range (n + 1)).map
                (fun i => base * 2 ^ (k - 1 + i) + jit (k + i)) := by
            rw [List.range_succ_eq_map, List.map_cons, List.map_map]
            refine List.cons_eq_cons.mpr ⟨by simp, ?_⟩
            apply List.map_congr_left
            intro i _
            have h1 : k - 1 + (i + 1) = k + i := by omega
            have h2 : k + (i + 1) = k + 1 + i := by omega
            simp [Function.comp, h1, h2]
          simp only [retry_from, hok]
          rw [ih (k + 1) (by omega)]
          simp [hdl]

/-- C3: for an op that fails on every attempt, `_async_retry` executes the
op exactly `retries` times; the delay slept after the k-th failed attempt
equals base · 2^(k-1) plus that attempt's jitter draw, hence lies in
[base · 2^(k-1), base · 2^(k-1) + 0.3) for jitter in [0, 0.3); the final
result is the fallback's value when one is supplied (absent when the
fallback itself raises) and absent otherwise — the op's exception is never
propagated. -/
theorem c3_retry_failing_op {T : Type} (op : Nat → Except PyError T)
    (retries : Nat) (base : ℚ) (jit : Nat → ℚ)
    (fb : Option (Except PyError T))
    (hop : ∀ k, isErrB (op k) = true)
    (hjit : ∀ k, 0 ≤ jit k ∧ jit k < 3 / 10) :
    (async_retry op retries base jit fb).attempts = retries ∧
    (async_retry op retries base jit fb).delays.length = retries ∧
    (∀ i, ∀ h : i < (async_retry op retries base jit fb).delays.length,
      base * 2 ^ i ≤ (async_retry op retries base jit fb).delays.get ⟨i, h⟩ ∧
      (async_retry op retries base jit fb).delays.get ⟨i, h⟩ <
        base * 2 ^ i + 3 / 10) ∧
    (fb = Option.none →
      (async_retry op retries base jit fb).result = Option.none) ∧
    (∀ v, fb = some (Except.ok v) →
      (async_retry op retries base jit fb).result = some v) ∧
    (∀ er, fb = some (Except.error er) →
      (async_retry op retries base jit fb).result = Option.none) := by
  have hmain := retry_from_all_fail op base jit fb hop retries 1 (by omega)
  unfold async_retry
  rw [hmain]
  refine ⟨rfl, by simp, ?_, ?_, ?_, ?_⟩
  · intro i h
    have hg : ((List.range retries).map
        (fun i => base * 2 ^ (1 - 1 + i) + jit (1 + i))).get ⟨i, h⟩ =
        base * 2 ^ i + jit (1 + i) := by
      simp
    rw [hg]
    have hj := hjit (1 + i)
    constructor
    · linarith [hj.1]
    · linarith [hj.2]
  · rintro rfl; rfl
  · rintro v rfl; rfl
  · rintro er rfl; rfl

/-- C3 witness: a three-attempt run of an op that always raises, with no
fallback, performs exactly three attempts and returns absent. -/
theorem c3_witness :
    (async_retry (fun _ => Except.error
        { className := "OSError", message := "boom" })
      3 (8 / 10) (fun _ => 1 / 10)
      (Option.none : Option (Except PyError Unit))).attempts = 3 ∧
    (async_retry (fun _ => Except.error
        { className := "OSError", message := "boom" })
      3 (8 / 10) (fun _ => 1 / 10)
      (Option.none : Option (Except PyError Unit))).result = Option.none := by
  have h := c3_retry_failing_op
    (fun _ => Except.error { className := "OSError", message := "boom" })
    3 (8 / 10) (fun _ => 1 / 10)
    (Option.none : Option (Except PyError Unit))
    (fun _ => rfl) (fun _ => by norm_num)
  exact ⟨h.1, h.2.2.2.1 rfl⟩

/-- C4: enqueue appends the record to the process-wide buffer and triggers
an immediate flush exactly when the appended buffer reaches the BATCH
threshold (default 3), otherwise arming the DELAY timer (default 1.0 s)
only when none is pending; every flush clears the buffer and disarms the
timer atomically, emits a cancel for a pending timer, and calls
record_events_bulk exactly once on a non-empty snapshot and never on an
empty one. -/
theorem c4_coalescer_contract (batch : Nat) (r : UIEvent)
    (s : CoalescerState) :
    COALESCE_BATCH_default = 3 ∧
    COALESCE_DELAY_default = 1 ∧
    (enqueue_ui_event_coalesced batch r s).2.countP isBulk =
      (if batch ≤ s.buf.length + 1 then 1 else 0) ∧
    (s.buf.length + 1 < batch →
      enqueue_ui_event_coalesced batch r s =
        ({ buf := s.buf ++ [r], timerArmed := true },
          if s.timerArmed then [] else [CoalescerAction.armTimer])) ∧
    (batch ≤ s.buf.length + 1 →
      enqueue_ui_event_coalesced batch r s =
        flush_events_now { buf := s.buf ++ [r], timerArmed := s.timerArmed }) ∧
    (flush_events_now s).1 = { buf := [], timerArmed := false } ∧
    (flush_events_now s).2.countP isBulk =
      (if s.buf.isEmpty then 0 else 1) ∧
    (s.buf ≠ [] → CoalescerAction.bulk s.buf ∈ (flush_events_now s).2) ∧
    ((CoalescerAction.cancelTimer ∈ (flush_events_now s).2) ↔
      s.timerArmed = true) := by
  refine ⟨rfl, rfl, ?_, ?_, ?_, rfl, ?_, ?_, ?_⟩
  · simp only [enqueue_ui_event_coalesced]
    by_cases hb : batch ≤ (s.buf ++ [r]).length
    · rw [if_pos hb]
      have hb2 : batch ≤ s.buf.length + 1 := by simpa using hb
      rw [if_pos hb2]
      cases ht : s.timerArmed <;>
        simp [flush_events_now, ht, List.countP_append, List.countP_cons,
          isBulk]
    · rw [if_neg hb]
      have hb2 : ¬ batch ≤ s.buf.length + 1 := by simpa using hb
      rw [if_neg hb2]
      cases ht : s.timerArmed <;> simp [ht, List.countP_cons, isBulk]
  · intro hlt
    have hcond : ¬ batch ≤ (s.buf ++ [r]).length := by
      simp only [List.length_append, List.length_cons, List.length_nil]
      omega
    simp only [enqueue_ui_event_coalesced]
    rw [if_neg hcond]
  · intro hge
    have hcond : batch ≤ (s.buf ++ [r]).length := by
      simpa using hge
    simp only [enqueue_ui_event_coalesced]
    rw [if_pos hcond]
  · cases ht : s.timerArmed <;> by_cases he : s.buf.isEmpty <;>
      simp [flush_events_now, ht, he, List.countP_append, List.countP_cons,
        isBulk]
  · intro hne
    have he : s.buf.isEmpty = false := by simpa using hne
    cases ht : s.timerArmed <;> simp [flush_events_now, ht, he]
  · cases ht : s.timerArmed <;> by_cases he : s.buf.isEmpty <;>
      simp [flush_events_now, ht, he]

/-- C4 witness: with BATCH 4 and two buffered records, an enqueue appends
and arms the timer (none was pending); with BATCH 3 it would flush. -/
theorem c4_witness :
    (enqueue_ui_event_coalesced 4 sampleUIEvent
        { buf := [sampleUIEvent, sampleUIEvent], timerArmed := false }) =
      ({ buf := [sampleUIEvent, sampleUIEvent, sampleUIEvent],
          timerArmed := true }, [CoalescerAction.armTimer]) ∧
    (enqueue_ui_event_coalesced 3 sampleUIEvent
        { buf := [sampleUIEvent, sampleUIEvent], timerArmed := false
          }).2.countP isBulk = 1 := by
  constructor
  · have h := (c4_coalescer_contract 4 sampleUIEvent
      { buf := [sampleUIEvent, sampleUIEvent],
        timerArmed := false }).2.2.2.1 (by norm_num)
    simpa using h
  · have h := (c4_coalescer_contract 3 sampleUIEvent
      { buf := [sampleUIEvent, sampleUIEvent], timerArmed := false }).2.2.1
    simpa using h

/-- Helper: the watcher performs its teardown step somewhere in the
observation window exactly when some polled status within the window
normalises to a cancel signal. -/
theorem watch_execCancel_mem_iff (st : Nat → Option String) :
    ∀ fuel i, (WatchAct.execCancel ∈ watch_cancellation st i fuel ↔
      ∃ j, j < fuel ∧ is_cancel_status (st (i + j)) = true) := by
  intro fuel
  induction fuel with
  | zero =>
      intro i
      simp [watch_cancellation]
  | succ n ih =>
      intro i
      by_cases hc : is_cancel_status (st i) = true
      · simp only [watch_cancellation, hc, if_pos]
        constructor
        · intro _
          exact ⟨0, by omega, by simpa using hc⟩
        · intro _
          simp
      · have hc2 : is_cancel_status (st i) = false := by
          simpa using hc
        simp only [watch_cancellation, hc2, Bool.false_eq_true, if_false]
        constructor
        · intro hmem
          have hmem2 : WatchAct.execCancel ∈ watch_cancellation st (i + 1) n := by
            simpa using hmem
          obtain ⟨j, hj, hcj⟩ := (ih (i + 1)).mp hmem2
          refine ⟨j + 1, by omega, ?_⟩
          have : i + 1 + j = i + (j + 1) := by omega
          rwa [this] at hcj
        · rintro ⟨j, hj, hcj⟩
          cases j with
          | zero =>
              simp only [Nat.add_zero] at hcj
              rw [hcj] at hc2
              cases hc2
          | succ m =>
              have hcm : is_cancel_status (st (i + 1 + m)) = true := by
                have : i + 1 + m = i + (m + 1) := by omega
                rwa [this]
              have hmem2 := (ih (i + 1)).mpr ⟨m, by omega, hcm⟩
              simp [hmem2]

/-- C8: the watcher (polling every 0.5 s by default) starts teardown exactly
when the trimmed, lowercased polled status is "cancelled" or "fb_requested";
on detection it invokes executor.cancel, then cancels the execute task, then
closes the event queue, and then exits the loop; otherwise it keeps
polling. -/
theorem c8_cancellation_watcher (st : Nat → Option String) (i fuel : Nat) :
    cancel_check_interval_default = 1 / 2 ∧
    (is_cancel_status (st i) = true →
      watch_cancellation st i (fuel + 1) =
        [WatchAct.sleep, WatchAct.poll i, WatchAct.execCancel,
          WatchAct.cancelExecTask, WatchAct.closeQueue]) ∧
    (is_cancel_status (st i) = false →
      watch_cancellation st i (fuel + 1) =
        WatchAct.sleep :: WatchAct.poll i ::
          watch_cancellation st (i + 1) fuel) ∧
    (WatchAct.execCancel ∈ watch_cancellation st i fuel ↔
      ∃ j, j < fuel ∧ is_cancel_status (st (i + j)) = true) := by
  refine ⟨rfl, ?_, ?_, watch_execCancel_mem_iff st fuel i⟩
  · intro hc
    simp [watch_cancellation, hc]
  · intro hc
    simp [watch_cancellation, hc]

/-- C8 witness: a status stream whose first poll reads " Cancelled "
triggers the teardown sequence immediately. -/
theorem c8_witness :
    watch_cancellation (fun _ => some " Cancelled ") 0 1 =
      [WatchAct.sleep, WatchAct.poll 0, WatchAct.execCancel,
        WatchAct.cancelExecTask, WatchAct.closeQueue] :=
  (c8_cancellation_watcher (fun _ => some " Cancelled ") 0 0).2.1 rfl

/-- C9: when the user-id string yields no valid UUID (in particular when it
is empty) and when the filtered query returns no agent rows,
fetch_agent_data returns the normalised fetch_all_agents list instead of an
empty list; every normalised agent defaults its tools field to "mem0" when
the stored value is absent. -/
theorem c9_agent_lookup_fallback (isValidUuid : String → Bool)
    (queryAgents : List String → Option (List UserRow))
    (allAgentRows : List UserRow) (user_ids : String) :
    split_ids "" = [] ∧
    ((split_ids user_ids).filter isValidUuid = [] →
      fetch_agent_data isValidUuid queryAgents allAgentRows user_ids =
        allAgentRows.map normalize_agent_row) ∧
    (queryAgents ((split_ids user_ids).filter isValidUuid) = some [] →
      fetch_agent_data isValidUuid queryAgents allAgentRows user_ids =
        allAgentRows.map normalize_agent_row) ∧
    (∀ row : UserRow, row.tools = Option.none →
      (normalize_agent_row row).tools = "mem0") := by
  refine ⟨rfl, ?_, ?_, ?_⟩
  · intro hempty
    simp [fetch_agent_data, hempty]
  · intro hq
    by_cases hempty : (split_ids user_ids).filter isValidUuid = []
    · simp [fetch_agent_data, hempty]
    · have hne : ((split_ids user_ids).filter isValidUuid).isEmpty = false := by
        simpa using hempty
      simp [fetch_agent_data, hne, hq]
  · intro row hrow
    simp [normalize_agent_row, hrow, pyStrOrD]

/-- C9 witness: an input with no valid UUIDs, and a valid-looking input
whose query returns no rows, both fall back to the full agent list; the
sample row with absent tools normalises to "mem0". -/
theorem c9_witness :
    fetch_agent_data (fun _ => false) (fun _ => some []) [sampleUserRow]
        " , x," = [sampleUserRow].map normalize_agent_row ∧
    fetch_agent_data (fun _ => true) (fun _ => some []) [sampleUserRow]
        "3f0c-nope" = [sampleUserRow].map normalize_agent_row ∧
    (normalize_agent_row sampleUserRow).tools = "mem0" := by
  refine ⟨?_, ?_, ?_⟩
  · exact (c9_agent_lookup_fallback (fun _ => false) (fun _ => some [])
      [sampleUserRow] " , x,").2.1 rfl
  · exact (c9_agent_lookup_fallback (fun _ => true) (fun _ => some [])
      [sampleUserRow] "3f0c-nope").2.2.1 rfl
  · exact (c9_agent_lookup_fallback (fun _ => true) (fun _ => some [])
      [sampleUserRow] "x").2.2.2 sampleUserRow rfl

/-- Helper: `_to_jsonable` only ever produces JSON-safe values. -/
theorem isJsonable_to_jsonable (v : PyVal) :
    isJsonable (to_jsonable v) = true := by
  induction v using to_jsonable.induct with
  | case1 => simp [to_jsonable, isJsonable]
  | case2 b => simp [to_jsonable, isJsonable]
  | case3 n => simp [to_jsonable, isJsonable]
  | case4 s => simp [to_jsonable, isJsonable]
  | case5 kvs ih =>
      simp only [to_jsonable, isJsonable]
      rw [List.all_eq_true]
      intro x hx
      obtain ⟨kv, hkv, hfeq⟩ := List.mem_map.mp x.2
      have hkey : x.1.1 = PyVal.str (pyStr kv.1.1) := by rw [← hfeq]
      have hval : x.1.2 = to_jsonable kv.1.2 := by rw [← hfeq]
      rw [hkey, hval]
      simp [ih kv]
  | case6 xs ih =>
      simp only [to_jsonable, isJsonable]
      rw [List.all_eq_true]
      intro x hx
      obtain ⟨y, hy, hfeq⟩ := List.mem_map.mp x.2
      have hval : x.1 = to_jsonable y.1 := by rw [← hfeq]
      rw [hval]
      exact ih y
  | case7 xs ih =>
      simp only [to_jsonable, isJsonable]
      rw [List.all_eq_true]
      intro x hx
      obtain ⟨y, hy, hfeq⟩ := List.mem_map.mp x.2
      have hval : x.1 = to_jsonable y.1 := by rw [← hfeq]
      rw [hval]
      exact ih y
  | case8 xs ih =>
      simp only [to_jsonable, isJsonable]
      rw [List.all_eq_true]
      intro x hx
      obtain ⟨y, hy, hfeq⟩ := List.mem_map.mp x.2
      have hval : x.1 = to_jsonable y.1 := by rw [← hfeq]
      rw [hval]
      exact ih y
  | case9 fields ih =>
      simp only [to_jsonable, isJsonable]
      rw [List.all_eq_true]
      intro x hx
      obtain ⟨kv, hkv, hfeq⟩ := List.mem_map.mp x.2
      have hkey : x.1.1 = PyVal.str (pyStr (PyVal.str kv.1.1)) := by
        rw [← hfeq]
      have hval : x.1.2 = to_jsonable kv.1.2 := by rw [← hfeq]
      rw [hkey, hval]
      simp [ih kv]
  | case10 r => simp [to_jsonable, isJsonable]

/-- Helper: replacing the value of every `status` entry by null commutes
with the `status` lookup performed by `safe_payload.get("status")`. -/
theorem find_status_replace (kvs : List (PyVal × PyVal)) :
    List.find? (fun kv => match kv.1 with
        | PyVal.str s => s == "status"
        | _ => false)
      (kvs.map (fun kv => match kv.1 with
        | PyVal.str s => if s == "status" then (kv.1, PyVal.none) else kv
        | _ => kv)) =
    (List.find? (fun kv => match kv.1 with
        | PyVal.str s => s == "status"
        | _ => false) kvs).map
      (fun kv => (kv.1, PyVal.none)) := by
  induction kvs with
  | nil => rfl
  | cons kv rest ih =>
      obtain ⟨k, v⟩ := kv
      cases k
      case str s =>
        by_cases hs : s = "status"
        · subst hs
          simp
        · simp [-List.find?_map, hs]
          simpa using ih
      all_goals
        simp [-List.find?_map]
        simpa using ih

/-- C10: every value `_to_jsonable` produces is built only from null,
booleans, numbers, strings, lists and string-keyed dicts (anything else
collapses to its repr string), and the conversion is total, so
`record_event` and `save_task_result` never propagate an exception for any
payload; `record_event` rejects a None payload without inserting, and an
empty-string status field is normalised to null before insertion, so no
inserted row carries an empty-string status. -/
theorem c10_jsonable_and_status_normalized :
    (∀ v, isJsonable (to_jsonable v) = true) ∧
    (∀ v, isJsonable (save_task_result_payload v) = true) ∧
    (∀ r, to_jsonable (PyVal.other r) = PyVal.str r) ∧
    (∀ p w, record_event_insert (some p) = some w →
      status_field w ≠ some (PyVal.str "")) ∧
    record_event_insert Option.none = Option.none := by
  refine ⟨isJsonable_to_jsonable, isJsonable_to_jsonable, ?_, ?_, rfl⟩
  · intro r
    simp [to_jsonable]
  · intro p w hw
    simp only [record_event_insert, Option.some.injEq] at hw
    subst hw
    rcases hv : to_jsonable p with _ | b | n | s | kvs | xs | xs | xs | fields | r
    case dict =>
      simp only [normalize_status_field]
      by_cases hst : (getStrKey kvs "status").any
          (fun v => match v with | PyVal.str s => s == "" | _ => false) = true
      · rw [if_pos hst]
        simp only [status_field]
        cases hfind : getStrKey kvs "status" with
        | none =>
            rw [hfind] at hst
            simp [Option.any] at hst
        | some w0 =>
            have hrepl := (by
              simpa [getStrKey, -List.find?_map] using
                congrArg (Option.map (fun kv : PyVal × PyVal => kv.2))
                  (find_status_replace kvs) :
              getStrKey (kvs.map (fun kv => match kv.1 with
                | PyVal.str s => if s == "status" then (kv.1, PyVal.none)
                  else kv
                | _ => kv)) "status" =
              (getStrKey kvs "status").map (fun _ => PyVal.none))
            rw [hrepl, hfind]
            simp
      · rw [if_neg hst]
        simp only [status_field]
        intro hcontra
        apply hst
        rw [hcontra]
        rfl
    all_goals
      simp [normalize_status_field, status_field]

/-- C10 witness: a payload whose status field is the empty string is
inserted with a null status; a plain string payload passes through with no
status field at all. -/
theorem c10_witness :
    status_field (PyVal.str "x") ≠ some (PyVal.str "") := by
  apply c10_jsonable_and_status_normalized.2.2.2.1 (PyVal.str "x")
    (PyVal.str "x")
  simp [record_event_insert, to_jsonable, normalize_status_field]

end ProcessGPT
